import Mathlib

/-!
Shallow embedding of the Conversation Orchestration Engine of the ChatBot
repository (src/src): the conversation data model (src/models/conversation.py,
src/models/message.py, src/models/tenant.py), the handoff evaluator
(src/services/conversation/handoff.py), the memory manager
(src/services/conversation/memory.py), the orchestration turn
(src/services/conversation/engine.py) and the WhatsApp webhook control flow
(src/api/routes/webhooks.py lines 63-135).

Modelling conventions:
- Python unbounded `int` is ℤ, `float` scores/thresholds are ℚ (the claims are
  about the algorithms, not rounding), `datetime` values are ℤ timestamps.
- External collaborators (LLM completion, LLM summarization/extraction,
  sentiment backend, uuid generation, wall-clock time) are parameters of the
  embedded functions: a failed external call is `none`.
- Persistence follows the repository's storage semantics
  (src/storage/memory.py): `save_message` appends to the stored message list,
  and the `Conversation` record held by the store is the same object the
  engine mutates, so an in-place counter update is immediately visible in the
  store; `EngineState` below is that store view restricted to one conversation.
- Python string lowering/`in` tests are embedded on `String.data` character
  lists (`pyLower`, `containsSub`), which agree with `str.lower`/`in` on the
  ASCII keyword sets involved.
- The `context : dict[str, Any]` audit payload of `HandoffDecision` and the
  f-string number formatting inside `reason` texts are not modelled (no claim
  mentions them); `reason` keeps the fixed text prefix.
-/

/-- Python slice `l[-n:]`: the last `n` elements of `l` (all of `l` when
`l.length ≤ n`). -/
def lastN {α : Type} (n : ℕ) (l : List α) : List α :=
  l.drop (l.length - n)

theorem lastN_eq_self {α : Type} {n : ℕ} {l : List α} (h : l.length ≤ n) :
    lastN n l = l := by
  simp [lastN, Nat.sub_eq_zero_of_le h]

theorem lastN_length {α : Type} (n : ℕ) (l : List α) :
    (lastN n l).length = l.length - (l.length - n) := by
  simp [lastN]

theorem lastN_length_le {α : Type} (n : ℕ) (l : List α) :
    (lastN n l).length ≤ n := by
  rw [lastN_length]; omega

theorem lastN_append_of_le {α : Type} (n : ℕ) (a b : List α)
    (h : n ≤ b.length) : lastN n (a ++ b) = lastN n b := by
  unfold lastN
  have hlen : (a ++ b).length - n = a.length + (b.length - n) := by
    simp [List.length_append]; omega
  rw [hlen, List.drop_append]

theorem lastN_append_of_ge {α : Type} (n : ℕ) (a b : List α)
    (h : b.length ≤ n) : lastN n (a ++ b) = lastN (n - b.length) a ++ b := by
  unfold lastN
  have hlen : (a ++ b).length - n = a.length - (n - b.length) := by
    simp [List.length_append]; omega
  rw [hlen, List.drop_append_of_le_length (by omega)]

theorem lastN_lastN {α : Type} (m n : ℕ) (l : List α) (h : m ≤ n) :
    lastN m (lastN n l) = lastN m l := by
  unfold lastN
  rw [List.length_drop, List.drop_drop]
  congr 1
  omega

theorem lastN_append_lastN {α : Type} (n : ℕ) (a b : List α) :
    lastN n (lastN n a ++ b) = lastN n (a ++ b) := by
  rcases le_or_lt n b.length with h | h
  · rw [lastN_append_of_le n _ b h, lastN_append_of_le n a b h]
  · rw [lastN_append_of_ge n _ b (le_of_lt h), lastN_append_of_ge n a b (le_of_lt h),
      lastN_lastN _ n a (Nat.sub_le n b.length)]

/-- Membership of `needle` as a contiguous sublist of `haystack`
(Python `needle in haystack` on strings, over their character lists). -/
def containsSub {α : Type} [BEq α] (needle haystack : List α) : Bool :=
  match haystack with
  | [] => needle.isEmpty
  | _ :: t => needle.isPrefixOf haystack || containsSub needle t

/-- Python `s.lower()` restricted to the ASCII lowering the handoff keyword
sets exercise, as a character list. -/
def pyLower (s : String) : List Char :=
  s.data.map Char.toLower

/-- ConversationStatus (src/models/conversation.py lines 10-17). -/
inductive ConversationStatus where
  | ACTIVE
  | HANDOFF_PENDING
  | HANDOFF_ACTIVE
  | RESOLVED
  | EXPIRED
deriving DecidableEq

/-- MessageDirection (src/models/message.py lines 19-23). -/
inductive MessageDirection where
  | INBOUND
  | OUTBOUND
deriving DecidableEq

/-- HandoffTrigger (src/services/conversation/handoff.py lines 17-26). -/
inductive HandoffTrigger where
  | NEGATIVE_SENTIMENT
  | EXPLICIT_REQUEST
  | MAX_FALLBACKS
  | LOW_CONFIDENCE
  | LOOP_DETECTED
  | SENSITIVE_TOPIC
  | MANUAL
deriving DecidableEq

/-- ConversationSummary (src/models/conversation.py lines 20-29); the source
comment on message_range says it holds start and end message indices. -/
structure ConversationSummary where
  summary_text : String
  key_topics : List String := []
  user_preferences : List (String × String) := []
  unresolved_issues : List String := []
  sentiment_trend : String := "neutral"
  created_at : ℤ := 0
  message_range : ℤ × ℤ := (0, 0)
deriving DecidableEq

/-- Conversation (src/models/conversation.py lines 75-113); datetimes are ℤ
timestamps, the free-form metadata dict and the Chatwoot fields are omitted. -/
structure Conversation where
  id : String
  tenant_id : String
  user_id : String
  status : ConversationStatus := ConversationStatus.ACTIVE
  channel : String := "whatsapp"
  last_message_at : Option ℤ := none
  last_user_message_at : Option ℤ := none
  message_count : ℤ := 0
  user_message_count : ℤ := 0
  bot_message_count : ℤ := 0
  fallback_count : ℤ := 0
  average_sentiment : ℚ := 0
  sentiment_history : List ℚ := []
  summaries : List ConversationSummary := []
  handoff_reason : Option String := none
deriving DecidableEq

/-- Message (src/models/message.py); the media/template metadata is omitted. -/
structure Message where
  id : String
  conversation_id : String
  tenant_id : String
  content : String
  direction : MessageDirection
  user_id : String := ""
  is_from_bot : Bool := false
  created_at : ℤ := 0
deriving DecidableEq

/-- TenantConfig (src/models/tenant.py lines 19-51), the fields the core
reads. -/
structure TenantConfig where
  company_name : String
  fallback_message : String := "Fallback message"
  system_prompt : String := ""
  enable_auto_handoff : Bool := true
  handoff_keywords : List String :=
    ["agent", "human", "person", "representative", "agente", "humano"]
  enable_sentiment_analysis : Bool := true
  enable_conversation_summary : Bool := true
deriving DecidableEq

/-- Tenant (src/models/tenant.py lines 54-79), the fields the core reads. -/
structure Tenant where
  id : String
  name : String := ""
  config : TenantConfig
deriving DecidableEq

/-- SentimentResult (src/services/sentiment/analyzer.py lines 13-25). -/
structure SentimentResult where
  sentiment : String
  score : ℚ
  confidence : ℚ
deriving DecidableEq

/-- LLMResponse content of src/services/llm/provider.py as the engine
consumes it. -/
structure LLMResponse where
  content : String
  model : String := ""
  tokens_input : ℤ := 0
  tokens_output : ℤ := 0
  latency_ms : ℤ := 0
deriving DecidableEq

/-- HandoffDecision (src/services/conversation/handoff.py lines 29-37),
without the `context` audit dict. -/
structure HandoffDecision where
  should_handoff : Bool
  trigger : Option HandoffTrigger := none
  confidence : ℚ := 0
  reason : String := ""
deriving DecidableEq

/-- Conversation.update_sentiment (src/models/conversation.py lines 122-132):
append the score, keep the last 10, recompute the weighted average with
weights 1..k oldest-to-newest normalized by the weight sum. -/
def Conversation.update_sentiment (c : Conversation) (new_score : ℚ) :
    Conversation :=
  let appended := c.sentiment_history ++ [new_score]
  let history := if 10 < appended.length then lastN 10 appended else appended
  let weights := List.range' 1 history.length
  let total_weight : ℚ := (weights.map (fun w : ℕ => (w : ℚ))).sum
  let weighted_sum : ℚ :=
    ((history.zip weights).map (fun p => p.1 * ((p.2 : ℕ) : ℚ))).sum
  { c with sentiment_history := history,
           average_sentiment := weighted_sum / total_weight }

/-- Conversation.increment_fallback (src/models/conversation.py
lines 134-137). -/
def Conversation.increment_fallback (c : Conversation) : Conversation :=
  { c with fallback_count := c.fallback_count + 1 }

/-- The decision value `HandoffDecision(should_handoff=False)` every negative
branch of the evaluator returns. -/
def noHandoffDecision : HandoffDecision :=
  { should_handoff := false }

/-- Default handoff keywords of HandoffEvaluator.__init__
(src/services/conversation/handoff.py lines 61-66); the Python set is
embedded as a list, decisions below are independent of iteration order. -/
def defaultHandoffKeywords : List String :=
  ["agent", "human", "person", "representative", "operator",
   "speak to someone", "talk to someone", "real person",
   "agente", "humano", "persona", "representante",
   "hablar con alguien"]

/-- The keyword set `set(tenant.config.handoff_keywords) or
self.default_handoff_keywords` of handoff.py line 141: an empty tenant list
is falsy, so the defaults take over. -/
def effectiveKeywords (tenant : Tenant) : List String :=
  if tenant.config.handoff_keywords.isEmpty then defaultHandoffKeywords
  else tenant.config.handoff_keywords

/-- HandoffEvaluator._check_explicit_request (handoff.py lines 132-153):
case-insensitive substring match of any effective keyword against the
message. -/
def HandoffEvaluator.check_explicit_request (message : String)
    (tenant : Tenant) : HandoffDecision :=
  let message_lower := pyLower message
  match (effectiveKeywords tenant).find?
      (fun k => containsSub (pyLower k) message_lower) with
  | some keyword =>
      { should_handoff := true,
        trigger := some HandoffTrigger.EXPLICIT_REQUEST,
        confidence := 1,
        reason := "User requested human agent (keyword: " ++ keyword ++ ")" }
  | none => noHandoffDecision

/-- HandoffEvaluator._check_sentiment (handoff.py lines 155-190): the
instantaneous check fires below the threshold with the sentiment result's own
confidence, the sustained check fires when the mean of the last 3 recorded
samples is below the threshold with fixed confidence 0.8. -/
def HandoffEvaluator.check_sentiment (sentiment : SentimentResult)
    (conversation : Conversation) (sentiment_threshold : ℚ) :
    HandoffDecision :=
  if sentiment.score < sentiment_threshold then
    { should_handoff := true,
      trigger := some HandoffTrigger.NEGATIVE_SENTIMENT,
      confidence := sentiment.confidence,
      reason := "Negative sentiment detected" }
  else if 3 ≤ conversation.sentiment_history.length ∧
      (lastN 3 conversation.sentiment_history).sum / 3 < sentiment_threshold then
    { should_handoff := true,
      trigger := some HandoffTrigger.NEGATIVE_SENTIMENT,
      confidence := 4/5,
      reason := "Sustained negative sentiment" }
  else noHandoffDecision

/-- HandoffEvaluator._check_fallbacks (handoff.py lines 192-206). -/
def HandoffEvaluator.check_fallbacks (conversation : Conversation)
    (max_fallbacks : ℤ) : HandoffDecision :=
  if max_fallbacks ≤ conversation.fallback_count then
    { should_handoff := true,
      trigger := some HandoffTrigger.MAX_FALLBACKS,
      confidence := 1,
      reason := "Max fallbacks reached" }
  else noHandoffDecision

/-- HandoffEvaluator._check_loop (handoff.py lines 208-220): the explicit
no-op extension point, always no escalation. -/
def HandoffEvaluator.check_loop (message : String)
    (conversation : Conversation) : HandoffDecision :=
  noHandoffDecision

/-- HandoffEvaluator.evaluate (handoff.py lines 68-130): tenant kill-switch
first, then the ordered short-circuiting checks. The sentiment result the
webhook precomputes is a parameter; `sentiment_threshold` and `max_fallbacks`
are the evaluator fields (settings defaults -0.5 and 2,
src/core/config.py lines 92 and 94). -/
def HandoffEvaluator.evaluate (message : String)
    (conversation : Conversation) (tenant : Tenant)
    (sentiment_result : SentimentResult) (sentiment_threshold : ℚ)
    (max_fallbacks : ℤ) : HandoffDecision :=
  if tenant.config.enable_auto_handoff = false then noHandoffDecision
  else
    let explicit_decision :=
      HandoffEvaluator.check_explicit_request message tenant
    if explicit_decision.should_handoff then explicit_decision
    else
      let sentiment_decision :=
        if tenant.config.enable_sentiment_analysis then
          HandoffEvaluator.check_sentiment sentiment_result conversation
            sentiment_threshold
        else noHandoffDecision
      if sentiment_decision.should_handoff then sentiment_decision
      else
        let fallback_decision :=
          HandoffEvaluator.check_fallbacks conversation max_fallbacks
        if fallback_decision.should_handoff then fallback_decision
        else
          let loop_decision :=
            HandoffEvaluator.check_loop message conversation
          if loop_decision.should_handoff then loop_decision
          else noHandoffDecision

/-- The structured entity extraction the LLM collaborator returns to
create_summary (memory.py lines 120-127). -/
structure Extraction where
  topics : List String := []
  preferences : List (String × String) := []
  unresolved : List String := []
  sentiment : String := "neutral"
deriving DecidableEq

/-- ConversationMemory.should_summarize (memory.py lines 84-91): true when
`message_count - lastSummaryEnd >= threshold`, where lastSummaryEnd is the
end of the last summary's message_range (0 with no summaries). -/
def ConversationMemory.should_summarize (summary_threshold : ℤ)
    (conversation : Conversation) : Bool :=
  let last_summarized : ℤ :=
    match conversation.summaries.getLast? with
    | some s => s.message_range.2
    | none => 0
  let messages_since := conversation.message_count - last_summarized
  decide (summary_threshold ≤ messages_since)

/-- ConversationMemory.create_summary (memory.py lines 93-137). The LLM
summarize/extract calls are the `llm` parameter (`none` when either call
fails); with no messages the Python code raises ValueError, embedded as
`none`. Note line 128 of the source stores the first and last messages'
created_at timestamps into message_range, not message indices. -/
def ConversationMemory.create_summary (conversation : Conversation)
    (messages : List Message) (llm : Option (String × Extraction)) :
    Option ConversationSummary :=
  if messages.isEmpty then none
  else
    match llm with
    | none => none
    | some (summary_text, extraction) =>
        some
          { summary_text := summary_text,
            key_topics := extraction.topics,
            user_preferences := extraction.preferences,
            unresolved_issues := extraction.unresolved,
            sentiment_trend := extraction.sentiment,
            created_at :=
              match messages.getLast? with
              | some m => m.created_at
              | none => 0,
            message_range :=
              ((match messages.head? with
                | some m => m.created_at
                | none => 0),
               (match messages.getLast? with
                | some m => m.created_at
                | none => 0)) }

/-- ConversationMemory.process_conversation_memory (memory.py lines 180-229):
decide whether to summarize, slice the stored messages since the last
summary's range end, create and append the summary; every failure path
returns `none` and leaves the conversation unchanged. `stored` is the full
per-conversation message list held by storage; the source fetches
`get_messages(limit=threshold+5)`, which returns the last `threshold+5`
stored messages (src/storage/memory.py line 106). -/
def ConversationMemory.process_conversation_memory (summary_threshold : ℤ)
    (conversation : Conversation) (stored : List Message)
    (llm : Option (String × Extraction)) :
    Option ConversationSummary × Conversation :=
  if ConversationMemory.should_summarize summary_threshold conversation = false
  then (none, conversation)
  else
    let start_index : ℤ :=
      match conversation.summaries.getLast? with
      | some s => s.message_range.2
      | none => 0
    let all_messages := lastN (summary_threshold + 5).toNat stored
    let messages_to_summarize :=
      if start_index < all_messages.length then
        all_messages.drop start_index.toNat
      else lastN summary_threshold.toNat all_messages
    if messages_to_summarize.length < summary_threshold then (none, conversation)
    else
      match ConversationMemory.create_summary conversation
          messages_to_summarize llm with
      | none => (none, conversation)
      | some summary =>
          (some summary,
           { conversation with summaries := conversation.summaries ++ [summary] })

/-- The storage view of one conversation: the Conversation record and the
ordered list of its saved messages (src/storage/memory.py keeps both; the
record the store holds is the object the engine mutates, so counter updates
are visible in the store as soon as they happen). -/
structure EngineState where
  conversation : Conversation
  messages : List Message
deriving DecidableEq

/-- The inbound half of ConversationEngine.process_message (engine.py
lines 126-142): save the inbound Message, bump message_count and
user_message_count, stamp last_message_at and last_user_message_at.
`in_id` is the uuid the source draws, `now` the wall clock. -/
def ConversationEngine.record_inbound (tenant : Tenant) (st : EngineState)
    (user_message : String) (in_id : String) (now : ℤ) : EngineState :=
  let incoming_msg : Message :=
    { id := in_id,
      conversation_id := st.conversation.id,
      tenant_id := tenant.id,
      content := user_message,
      direction := MessageDirection.INBOUND,
      user_id := st.conversation.user_id,
      created_at := now }
  { conversation :=
      { st.conversation with
        message_count := st.conversation.message_count + 1,
        user_message_count := st.conversation.user_message_count + 1,
        last_message_at := some now,
        last_user_message_at := some now },
    messages := st.messages ++ [incoming_msg] }

/-- The outbound half of ConversationEngine.process_message (engine.py
lines 155-178): save the outbound Message built from the LLM response, bump
message_count and bot_message_count, save the conversation. -/
def ConversationEngine.record_outbound (tenant : Tenant) (st : EngineState)
    (llm_response : LLMResponse) (out_id : String) (now : ℤ) : EngineState :=
  let outgoing_msg : Message :=
    { id := out_id,
      conversation_id := st.conversation.id,
      tenant_id := tenant.id,
      content := llm_response.content,
      direction := MessageDirection.OUTBOUND,
      user_id := st.conversation.user_id,
      is_from_bot := true,
      created_at := now }
  { conversation :=
      { st.conversation with
        message_count := st.conversation.message_count + 1,
        bot_message_count := st.conversation.bot_message_count + 1 },
    messages := st.messages ++ [outgoing_msg] }

/-- ConversationEngine.process_message (engine.py lines 105-190): record the
inbound message and counters, attempt generation (`generation` is the
_build_context/_generate_response collaborator pipeline, `none` when the LLM
call raises), and on success record the outbound message and run the
post-turn memory check. A generation failure aborts the turn with the state
reached after the inbound half (`Except.error`): the inbound message stays
saved and no outbound message is written. -/
def ConversationEngine.process_message (tenant : Tenant) (st : EngineState)
    (user_message : String) (in_id out_id : String) (now : ℤ)
    (generation : Option LLMResponse) (summary_threshold : ℤ)
    (summarizer : Option (String × Extraction)) :
    Except EngineState (String × EngineState) :=
  let st1 := ConversationEngine.record_inbound tenant st user_message in_id now
  match generation with
  | none => Except.error st1
  | some llm_response =>
      let st2 := ConversationEngine.record_outbound tenant st1 llm_response
        out_id now
      let st3 : EngineState :=
        { st2 with
          conversation :=
            (ConversationMemory.process_conversation_memory summary_threshold
              st2.conversation st2.messages summarizer).2 }
      Except.ok (llm_response.content, st3)

/-- Outcome of ConversationEngine.handle_fallback: either the HandoffRequired
signal (engine.py line 292) or the tenant's fallback text. -/
inductive FallbackOutcome where
  | handoff (reason : String)
  | reply (text : String)
deriving DecidableEq

/-- ConversationEngine.handle_fallback (engine.py lines 272-298): increment
the fallback counter, save the conversation, and raise HandoffRequired only
when the counter has reached the maximum and the tenant enables auto
handoff. -/
def ConversationEngine.handle_fallback (tenant : Tenant)
    (conversation : Conversation) (max_fallbacks : ℤ) :
    FallbackOutcome × Conversation :=
  let c1 := conversation.increment_fallback
  if max_fallbacks ≤ c1.fallback_count ∧
      tenant.config.enable_auto_handoff = true then
    (FallbackOutcome.handoff "max_fallbacks_reached", c1)
  else (FallbackOutcome.reply tenant.config.fallback_message, c1)

/-- Result of one webhook delivery: whether the Response Generator pipeline
was invoked, whether the turn escalated, and the resulting storage view. -/
structure WebhookResult where
  generator_called : Bool
  escalated : Bool
  state : EngineState
deriving DecidableEq

/-- whatsapp_webhook message handling (webhooks.py lines 63-135) after tenant
and conversation are loaded: skip everything while the conversation is in a
handoff status (lines 71-76); otherwise update sentiment (line 82), run the
handoff evaluator (lines 85-90) and either transition to HANDOFF_PENDING and
persist (lines 92-109) or run the engine turn (lines 118-123).
`generator_called` is true exactly on the paths that reach
engine.process_message, whose body always invokes _generate_response. -/
def whatsapp_webhook (tenant : Tenant) (st : EngineState)
    (content : String) (sentiment_result : SentimentResult)
    (sentiment_threshold : ℚ) (max_fallbacks : ℤ)
    (in_id out_id : String) (now : ℤ)
    (generation : Option LLMResponse) (summary_threshold : ℤ)
    (summarizer : Option (String × Extraction)) : WebhookResult :=
  if st.conversation.status = ConversationStatus.HANDOFF_ACTIVE ∨
      st.conversation.status = ConversationStatus.HANDOFF_PENDING then
    { generator_called := false, escalated := false, state := st }
  else
    let conversation := st.conversation.update_sentiment sentiment_result.score
    let handoff_decision := HandoffEvaluator.evaluate content conversation
      tenant sentiment_result sentiment_threshold max_fallbacks
    if handoff_decision.should_handoff then
      { generator_called := false,
        escalated := true,
        state :=
          { conversation :=
              { conversation with
                status := ConversationStatus.HANDOFF_PENDING,
                handoff_reason := some handoff_decision.reason },
            messages := st.messages } }
    else
      match ConversationEngine.process_message tenant
          { conversation := conversation, messages := st.messages } content
          in_id out_id now generation summary_threshold summarizer with
      | Except.error st1 =>
          { generator_called := true, escalated := false, state := st1 }
      | Except.ok (_, st2) =>
          { generator_called := true, escalated := false, state := st2 }

/-- When some effective keyword matches the lowered message,
_check_explicit_request returns the explicit-request decision with
confidence 1.0 for one matched keyword. -/
theorem check_explicit_request_pos (message : String) (tenant : Tenant)
    (hmatch : ∃ k ∈ effectiveKeywords tenant,
      containsSub (pyLower k) (pyLower message) = true) :
    ∃ kw, HandoffEvaluator.check_explicit_request message tenant =
      { should_handoff := true,
        trigger := some HandoffTrigger.EXPLICIT_REQUEST,
        confidence := 1,
        reason := "User requested human agent (keyword: " ++ kw ++ ")" } := by
  have hsome : ((effectiveKeywords tenant).find?
      (fun k => containsSub (pyLower k) (pyLower message))).isSome = true := by
    rw [List.find?_isSome]
    exact hmatch
  obtain ⟨kw, hkw⟩ := Option.isSome_iff_exists.mp hsome
  refine ⟨kw, ?_⟩
  unfold HandoffEvaluator.check_explicit_request
  dsimp only
  rw [hkw]

/-- C5: with auto-escalation enabled, a message matching any configured or
default handoff keyword (case-insensitive substring) makes the evaluator
report trigger EXPLICIT_REQUEST with confidence 1.0, for every conversation
and sentiment input: check 1 wins and the later checks are short-circuited
away. -/
theorem c5_explicit_request_wins (message : String)
    (conversation : Conversation) (tenant : Tenant)
    (sentiment_result : SentimentResult) (sentiment_threshold : ℚ)
    (max_fallbacks : ℤ)
    (hen : tenant.config.enable_auto_handoff = true)
    (hmatch : ∃ k ∈ effectiveKeywords tenant,
      containsSub (pyLower k) (pyLower message) = true) :
    (HandoffEvaluator.evaluate message conversation tenant sentiment_result
      sentiment_threshold max_fallbacks).should_handoff = true ∧
    (HandoffEvaluator.evaluate message conversation tenant sentiment_result
      sentiment_threshold max_fallbacks).trigger =
      some HandoffTrigger.EXPLICIT_REQUEST ∧
    (HandoffEvaluator.evaluate message conversation tenant sentiment_result
      sentiment_threshold max_fallbacks).confidence = 1 := by
  obtain ⟨kw, hkw⟩ := check_explicit_request_pos message tenant hmatch
  unfold HandoffEvaluator.evaluate
  rw [hen, hkw]
  simp

/-- C6: a tenant that disables auto-escalation makes the evaluator return
the no-escalation decision whatever the message, conversation, sentiment and
thresholds are. -/
theorem c6_disabled_tenant_never_escalates (message : String)
    (conversation : Conversation) (tenant : Tenant)
    (sentiment_result : SentimentResult) (sentiment_threshold : ℚ)
    (max_fallbacks : ℤ)
    (hdis : tenant.config.enable_auto_handoff = false) :
    HandoffEvaluator.evaluate message conversation tenant sentiment_result
      sentiment_threshold max_fallbacks = noHandoffDecision := by
  unfold HandoffEvaluator.evaluate
  rw [hdis]
  simp

/-- C10: an empty tenant keyword list falls back to the built-in default
keyword set, so a message matching a default keyword still escalates with
trigger EXPLICIT_REQUEST. -/
theorem c10_empty_keywords_use_defaults (message : String) (tenant : Tenant)
    (hkw : tenant.config.handoff_keywords = [])
    (hmatch : ∃ k ∈ defaultHandoffKeywords,
      containsSub (pyLower k) (pyLower message) = true) :
    effectiveKeywords tenant = defaultHandoffKeywords ∧
    (HandoffEvaluator.check_explicit_request message tenant).should_handoff =
      true ∧
    (HandoffEvaluator.check_explicit_request message tenant).trigger =
      some HandoffTrigger.EXPLICIT_REQUEST := by
  have heff : effectiveKeywords tenant = defaultHandoffKeywords := by
    simp [effectiveKeywords, hkw]
  obtain ⟨kw, hkwpos⟩ := check_explicit_request_pos message tenant
    (by rw [heff]; exact hmatch)
  exact ⟨heff, by rw [hkwpos], by rw [hkwpos]⟩

/-- A tenant with the default configuration (auto-handoff on). -/
def demoTenant : Tenant :=
  { id := "demo", name := "Demo Company", config := { company_name := "Demo" } }

/-- A tenant whose configuration disables auto-escalation. -/
def disabledTenant : Tenant :=
  { id := "t-off", config := { company_name := "Off",
                               enable_auto_handoff := false } }

/-- A tenant whose configured keyword list is empty. -/
def emptyKeywordTenant : Tenant :=
  { id := "t-empty", config := { company_name := "Empty",
                                 handoff_keywords := [] } }

/-- A fresh active conversation. -/
def demoConversation : Conversation :=
  { id := "c1", tenant_id := "demo", user_id := "u1" }

theorem c5_explicit_request_wins_witness :
    demoTenant.config.enable_auto_handoff = true ∧
    (∃ k ∈ effectiveKeywords demoTenant,
      containsSub (pyLower k) (pyLower "this is useless, get me a HUMAN") = true) ∧
    ((HandoffEvaluator.evaluate "this is useless, get me a HUMAN"
        demoConversation demoTenant ⟨"NEGATIVE", -1, 1⟩ 0 2).should_handoff = true ∧
     (HandoffEvaluator.evaluate "this is useless, get me a HUMAN"
        demoConversation demoTenant ⟨"NEGATIVE", -1, 1⟩ 0 2).trigger =
        some HandoffTrigger.EXPLICIT_REQUEST ∧
     (HandoffEvaluator.evaluate "this is useless, get me a HUMAN"
        demoConversation demoTenant ⟨"NEGATIVE", -1, 1⟩ 0 2).confidence = 1) :=
  ⟨rfl, by decide,
   c5_explicit_request_wins "this is useless, get me a HUMAN" demoConversation
     demoTenant ⟨"NEGATIVE", -1, 1⟩ 0 2 rfl (by decide)⟩

theorem c6_disabled_tenant_never_escalates_witness :
    disabledTenant.config.enable_auto_handoff = false ∧
    HandoffEvaluator.evaluate "I want to talk to a human" demoConversation
      disabledTenant ⟨"NEGATIVE", -9/10, 1⟩ (-1/2) 2 = noHandoffDecision :=
  ⟨rfl,
   c6_disabled_tenant_never_escalates "I want to talk to a human"
     demoConversation disabledTenant ⟨"NEGATIVE", -9/10, 1⟩ (-1/2) 2 rfl⟩

theorem c10_empty_keywords_use_defaults_witness :
    emptyKeywordTenant.config.handoff_keywords = [] ∧
    (∃ k ∈ defaultHandoffKeywords,
      containsSub (pyLower k) (pyLower "quiero hablar con un Humano") = true) ∧
    (effectiveKeywords emptyKeywordTenant = defaultHandoffKeywords ∧
     (HandoffEvaluator.check_explicit_request "quiero hablar con un Humano"
        emptyKeywordTenant).should_handoff = true ∧
     (HandoffEvaluator.check_explicit_request "quiero hablar con un Humano"
        emptyKeywordTenant).trigger = some HandoffTrigger.EXPLICIT_REQUEST) :=
  ⟨rfl, by decide,
   c10_empty_keywords_use_defaults "quiero hablar con un Humano"
     emptyKeywordTenant rfl (by decide)⟩

/-- C1: while a conversation sits in HANDOFF_PENDING or HANDOFF_ACTIVE, the
webhook turn for an inbound message never calls the Response Generator
pipeline and leaves bot_message_count unchanged (the guard returns before
any engine work). -/
theorem c1_handoff_skips_generation (tenant : Tenant) (st : EngineState)
    (content : String) (sentiment_result : SentimentResult)
    (sentiment_threshold : ℚ) (max_fallbacks : ℤ) (in_id out_id : String)
    (now : ℤ) (generation : Option LLMResponse) (summary_threshold : ℤ)
    (summarizer : Option (String × Extraction))
    (hstatus : st.conversation.status = ConversationStatus.HANDOFF_PENDING ∨
      st.conversation.status = ConversationStatus.HANDOFF_ACTIVE) :
    (whatsapp_webhook tenant st content sentiment_result sentiment_threshold
      max_fallbacks in_id out_id now generation summary_threshold
      summarizer).generator_called = false ∧
    (whatsapp_webhook tenant st content sentiment_result sentiment_threshold
      max_fallbacks in_id out_id now generation summary_threshold
      summarizer).state.conversation.bot_message_count =
      st.conversation.bot_message_count := by
  unfold whatsapp_webhook
  rcases hstatus with h | h <;> simp [h]

/-- A conversation already waiting for a human agent. -/
def pendingConversation : Conversation :=
  { id := "c-pending", tenant_id := "demo", user_id := "u1",
    status := ConversationStatus.HANDOFF_PENDING, bot_message_count := 3,
    user_message_count := 4, message_count := 7 }

theorem c1_handoff_skips_generation_witness :
    (pendingConversation.status = ConversationStatus.HANDOFF_PENDING ∨
      pendingConversation.status = ConversationStatus.HANDOFF_ACTIVE) ∧
    ((whatsapp_webhook demoTenant ⟨pendingConversation, []⟩ "hello"
        ⟨"NEUTRAL", 0, 1⟩ (-1/2) 2 "in1" "out1" 0
        (some { content := "reply" }) 15 none).generator_called = false ∧
     (whatsapp_webhook demoTenant ⟨pendingConversation, []⟩ "hello"
        ⟨"NEUTRAL", 0, 1⟩ (-1/2) 2 "in1" "out1" 0
        (some { content := "reply" }) 15 none).state.conversation.bot_message_count =
        pendingConversation.bot_message_count) :=
  ⟨Or.inl rfl,
   c1_handoff_skips_generation demoTenant ⟨pendingConversation, []⟩ "hello"
     ⟨"NEUTRAL", 0, 1⟩ (-1/2) 2 "in1" "out1" 0 (some { content := "reply" })
     15 none (Or.inl rfl)⟩

/-- C3: a failed generation call aborts the turn as an error whose state has
the inbound Message appended (and nothing else: no outbound Message), the
inbound counters message_count and user_message_count incremented,
last_user_message_at stamped, and bot_message_count untouched. -/
theorem c3_generation_failure_keeps_inbound (tenant : Tenant)
    (st : EngineState) (user_message : String) (in_id out_id : String)
    (now : ℤ) (summary_threshold : ℤ)
    (summarizer : Option (String × Extraction)) :
    ∃ st1 incoming,
      ConversationEngine.process_message tenant st user_message in_id out_id
        now none summary_threshold summarizer = Except.error st1 ∧
      st1.messages = st.messages ++ [incoming] ∧
      incoming.direction = MessageDirection.INBOUND ∧
      incoming.content = user_message ∧
      incoming.is_from_bot = false ∧
      st1.conversation.message_count = st.conversation.message_count + 1 ∧
      st1.conversation.user_message_count =
        st.conversation.user_message_count + 1 ∧
      st1.conversation.last_user_message_at = some now ∧
      st1.conversation.bot_message_count =
        st.conversation.bot_message_count := by
  exact ⟨_, _, rfl, rfl, rfl, rfl, rfl, rfl, rfl, rfl, rfl⟩

/-- C9: the counter invariant bot_message_count + user_message_count =
message_count is preserved by recording the inbound message, by recording
the outbound message, by fallback handling, and by a turn aborted on a
generation failure. -/
theorem c9_counter_invariant_preserved (tenant : Tenant) (st : EngineState)
    (user_message in_id out_id : String) (now : ℤ)
    (llm_response : LLMResponse) (max_fallbacks summary_threshold : ℤ)
    (summarizer : Option (String × Extraction)) (st1 : EngineState)
    (hinv : st.conversation.bot_message_count +
      st.conversation.user_message_count = st.conversation.message_count)
    (herr : ConversationEngine.process_message tenant st user_message in_id
      out_id now none summary_threshold summarizer = Except.error st1) :
    ((ConversationEngine.record_inbound tenant st user_message in_id
        now).conversation.bot_message_count +
      (ConversationEngine.record_inbound tenant st user_message in_id
        now).conversation.user_message_count =
      (ConversationEngine.record_inbound tenant st user_message in_id
        now).conversation.message_count) ∧
    ((ConversationEngine.record_outbound tenant st llm_response out_id
        now).conversation.bot_message_count +
      (ConversationEngine.record_outbound tenant st llm_response out_id
        now).conversation.user_message_count =
      (ConversationEngine.record_outbound tenant st llm_response out_id
        now).conversation.message_count) ∧
    ((ConversationEngine.handle_fallback tenant st.conversation
        max_fallbacks).2.bot_message_count +
      (ConversationEngine.handle_fallback tenant st.conversation
        max_fallbacks).2.user_message_count =
      (ConversationEngine.handle_fallback tenant st.conversation
        max_fallbacks).2.message_count) ∧
    (st1.conversation.bot_message_count +
      st1.conversation.user_message_count = st1.conversation.message_count) := by
  have hst1 : st1 = ConversationEngine.record_inbound tenant st user_message
      in_id now := by
    unfold ConversationEngine.process_message at herr
    simpa using herr.symm
  refine ⟨?_, ?_, ?_, ?_⟩
  · simp [ConversationEngine.record_inbound]; omega
  · simp [ConversationEngine.record_outbound]; omega
  · unfold ConversationEngine.handle_fallback
    dsimp only
    split <;> simp [Conversation.increment_fallback] <;> omega
  · rw [hst1]; simp [ConversationEngine.record_inbound]; omega

theorem c9_counter_invariant_preserved_witness :
    (demoConversation.bot_message_count +
      demoConversation.user_message_count = demoConversation.message_count) ∧
    (ConversationEngine.process_message demoTenant ⟨demoConversation, []⟩
      "hola" "in1" "out1" 0 none 15 none =
      Except.error (ConversationEngine.record_inbound demoTenant
        ⟨demoConversation, []⟩ "hola" "in1" 0)) ∧
    (((ConversationEngine.record_inbound demoTenant ⟨demoConversation, []⟩
        "hola" "in1" 0).conversation.bot_message_count +
      (ConversationEngine.record_inbound demoTenant ⟨demoConversation, []⟩
        "hola" "in1" 0).conversation.user_message_count =
      (ConversationEngine.record_inbound demoTenant ⟨demoConversation, []⟩
        "hola" "in1" 0).conversation.message_count) ∧
     ((ConversationEngine.record_outbound demoTenant ⟨demoConversation, []⟩
        { content := "hi" } "out1" 0).conversation.bot_message_count +
      (ConversationEngine.record_outbound demoTenant ⟨demoConversation, []⟩
        { content := "hi" } "out1" 0).conversation.user_message_count =
      (ConversationEngine.record_outbound demoTenant ⟨demoConversation, []⟩
        { content := "hi" } "out1" 0).conversation.message_count) ∧
     ((ConversationEngine.handle_fallback demoTenant demoConversation
        2).2.bot_message_count +
      (ConversationEngine.handle_fallback demoTenant demoConversation
        2).2.user_message_count =
      (ConversationEngine.handle_fallback demoTenant demoConversation
        2).2.message_count) ∧
     ((ConversationEngine.record_inbound demoTenant ⟨demoConversation, []⟩
        "hola" "in1" 0).conversation.bot_message_count +
      (ConversationEngine.record_inbound demoTenant ⟨demoConversation, []⟩
        "hola" "in1" 0).conversation.user_message_count =
      (ConversationEngine.record_inbound demoTenant ⟨demoConversation, []⟩
        "hola" "in1" 0).conversation.message_count)) :=
  ⟨rfl, rfl,
   c9_counter_invariant_preserved demoTenant ⟨demoConversation, []⟩ "hola"
     "in1" "out1" 0 { content := "hi" } 2 15 none
     (ConversationEngine.record_inbound demoTenant ⟨demoConversation, []⟩
       "hola" "in1" 0) rfl rfl⟩

/-- A list whose getLast? is some a splits as an append ending in a. -/
theorem getLast?_eq_some_append {α : Type} {l : List α} {a : α}
    (h : l.getLast? = some a) : ∃ pre, l = pre ++ [a] := by
  have hne : l ≠ [] := by rintro rfl; simp at h
  refine ⟨l.dropLast, ?_⟩
  have hd := List.dropLast_append_getLast hne
  rw [List.getLast?_eq_getLast l hne] at h
  obtain rfl : l.getLast hne = a := by injection h
  exact hd.symm

/-- Every failure path of process_conversation_memory leaves the conversation
unchanged: either the result carries the conversation as it was, or a summary
was produced. -/
theorem process_memory_cases (summary_threshold : ℤ) (c : Conversation)
    (stored : List Message) (llm : Option (String × Extraction)) :
    (ConversationMemory.process_conversation_memory summary_threshold c
      stored llm).2 = c ∨
    (ConversationMemory.process_conversation_memory summary_threshold c
      stored llm).1.isSome = true := by
  unfold ConversationMemory.process_conversation_memory
  dsimp only
  repeat' split
  all_goals first
  | exact Or.inl rfl
  | exact Or.inr rfl

/-- With no summary created, process_conversation_memory returns the
conversation unchanged. -/
theorem process_memory_none_unchanged (summary_threshold : ℤ)
    (c : Conversation) (stored : List Message)
    (llm : Option (String × Extraction))
    (hnone : (ConversationMemory.process_conversation_memory summary_threshold
      c stored llm).1 = none) :
    (ConversationMemory.process_conversation_memory summary_threshold c stored
      llm).2 = c := by
  rcases process_memory_cases summary_threshold c stored llm with h | h
  · exact h
  · rw [hnone] at h
    simp at h

/-- C8: should_summarize is true exactly when message_count minus the end of
the last summary's covered range (0 with no summaries) has reached the
threshold, and a memory-processing pass that creates no summary (a failed or
skipped Summarize) leaves its boolean unchanged. -/
theorem c8_should_summarize_iff (summary_threshold : ℤ) (c : Conversation)
    (stored : List Message) (llm : Option (String × Extraction))
    (hnone : (ConversationMemory.process_conversation_memory summary_threshold
      c stored llm).1 = none) :
    (ConversationMemory.should_summarize summary_threshold c = true ↔
      ((c.summaries = [] ∧ summary_threshold ≤ c.message_count) ∨
       (∃ pre s, c.summaries = pre ++ [s] ∧
         summary_threshold ≤ c.message_count - s.message_range.2))) ∧
    ConversationMemory.should_summarize summary_threshold
      ((ConversationMemory.process_conversation_memory summary_threshold c
        stored llm).2) =
      ConversationMemory.should_summarize summary_threshold c := by
  constructor
  · unfold ConversationMemory.should_summarize
    dsimp only
    rcases hl : c.summaries.getLast? with _ | s
    · have he : c.summaries = [] := List.getLast?_eq_none_iff.mp hl
      dsimp only
      simp only [decide_eq_true_eq, he, true_and, List.nil_eq, sub_zero]
      constructor
      · intro h; exact Or.inl h
      · rintro (h | ⟨pre, s, hps, _⟩)
        · exact h
        · exact absurd hps.symm (by simp)
    · obtain ⟨pre, hpre⟩ := getLast?_eq_some_append hl
      dsimp only
      simp only [decide_eq_true_eq]
      constructor
      · intro h; exact Or.inr ⟨pre, s, hpre, h⟩
      · rintro (⟨hnil, _⟩ | ⟨pre', s', hps, hle⟩)
        · rw [hnil] at hpre; exact absurd hpre.symm (by simp)
        · have hs : s' = s := by
            have h1 : (pre ++ [s]).getLast? = some s := by simp
            have h2 : (pre' ++ [s']).getLast? = some s' := by simp
            rw [← hpre, ← hps] at *
            rw [h1] at h2
            injection h2.symm
          rw [hs] at hle
          exact hle
  · rw [process_memory_none_unchanged summary_threshold c stored llm hnone]

theorem c8_should_summarize_iff_witness :
    ((ConversationMemory.process_conversation_memory 15 demoConversation []
        none).1 = none) ∧
    ((ConversationMemory.should_summarize 15 demoConversation = true ↔
      ((demoConversation.summaries = [] ∧
        (15 : ℤ) ≤ demoConversation.message_count) ∨
       (∃ pre s, demoConversation.summaries = pre ++ [s] ∧
         (15 : ℤ) ≤ demoConversation.message_count - s.message_range.2))) ∧
     ConversationMemory.should_summarize 15
       ((ConversationMemory.process_conversation_memory 15 demoConversation []
         none).2) = ConversationMemory.should_summarize 15 demoConversation) :=
  ⟨rfl, c8_should_summarize_iff 15 demoConversation [] none rfl⟩

/-- A conversation with 15 recorded messages and no summaries yet. -/
def c2Conversation : Conversation :=
  { id := "c2", tenant_id := "t", user_id := "u", message_count := 15 }

/-- The 15 stored messages of c2Conversation, created one second apart from
timestamp 1700000000. -/
def c2Messages : List Message :=
  (List.range 15).map (fun i =>
    { id := "m", conversation_id := "c2", tenant_id := "t", content := "text",
      direction := if i % 2 = 0 then MessageDirection.INBOUND
        else MessageDirection.OUTBOUND,
      user_id := "u", is_from_bot := decide (i % 2 = 1),
      created_at := 1700000000 + (i : ℤ) })

/-- C2 (code bug): at threshold 15 a successful summarization pass over the
15 stored messages produces a summary, but its message_range is the pair of
created_at timestamps (1700000000, 1700000014) of the first and last
summarized messages, not the message-index interval of lastEnd = 0 and
currentCount = 15 that the models declare and that should_summarize and
process_conversation_memory read back as an index. -/
theorem c2_message_range_is_timestamps :
    ((ConversationMemory.process_conversation_memory 15 c2Conversation
        c2Messages (some ("synopsis", {}))).1.map
      (fun s => s.message_range)) = some (1700000000, 1700000014) ∧
    ¬ ((1700000000 : ℤ), (1700000014 : ℤ)) = ((0 : ℤ), (15 : ℤ)) := by
  exact ⟨by decide, by decide⟩

/-- C7 counterexample: with sentiment score -9/10 below the default -1/2
threshold, the instantaneous sub-check fires but the decision carries the
sentiment result's reported confidence 1/2, not full confidence. -/
theorem c7_instantaneous_not_full_confidence :
    (HandoffEvaluator.check_sentiment ⟨"NEGATIVE", -9/10, 1/2⟩
      demoConversation (-1/2)).should_handoff = true ∧
    (HandoffEvaluator.check_sentiment ⟨"NEGATIVE", -9/10, 1/2⟩
      demoConversation (-1/2)).trigger =
      some HandoffTrigger.NEGATIVE_SENTIMENT ∧
    ¬ (HandoffEvaluator.check_sentiment ⟨"NEGATIVE", -9/10, 1/2⟩
      demoConversation (-1/2)).confidence = 1 := by
  have hscore : (⟨"NEGATIVE", -9/10, 1/2⟩ : SentimentResult).score < -1/2 := by
    norm_num
  unfold HandoffEvaluator.check_sentiment
  rw [if_pos hscore]
  refine ⟨rfl, rfl, ?_⟩
  norm_num

/-- C7 (amended): when the instantaneous score falls below the threshold the
decision carries the sentiment result's reported confidence; when only the
mean of the last 3 recorded samples falls below it the decision carries the
fixed confidence 0.8; both report the trigger NEGATIVE_SENTIMENT. -/
theorem c7_sentiment_check_confidences (sentiment : SentimentResult)
    (conversation : Conversation) (sentiment_threshold : ℚ) :
    (sentiment.score < sentiment_threshold →
      HandoffEvaluator.check_sentiment sentiment conversation
        sentiment_threshold =
        { should_handoff := true,
          trigger := some HandoffTrigger.NEGATIVE_SENTIMENT,
          confidence := sentiment.confidence,
          reason := "Negative sentiment detected" }) ∧
    (¬ sentiment.score < sentiment_threshold →
      3 ≤ conversation.sentiment_history.length →
      (lastN 3 conversation.sentiment_history).sum / 3 < sentiment_threshold →
      HandoffEvaluator.check_sentiment sentiment conversation
        sentiment_threshold =
        { should_handoff := true,
          trigger := some HandoffTrigger.NEGATIVE_SENTIMENT,
          confidence := 4/5,
          reason := "Sustained negative sentiment" }) := by
  constructor
  · intro h
    unfold HandoffEvaluator.check_sentiment
    rw [if_pos h]
  · intro h h3 havg
    unfold HandoffEvaluator.check_sentiment
    rw [if_neg h, if_pos ⟨h3, havg⟩]

/-- A conversation with three recorded strongly negative sentiment samples. -/
def sustainedNegativeConversation : Conversation :=
  { id := "c-neg", tenant_id := "demo", user_id := "u1",
    sentiment_history := [-1, -1, -1] }

theorem c7_sentiment_check_confidences_witness :
    (((-9 : ℚ)/10 < -1/2) ∧
     HandoffEvaluator.check_sentiment ⟨"NEGATIVE", -9/10, 1/2⟩
       demoConversation (-1/2) =
       { should_handoff := true,
         trigger := some HandoffTrigger.NEGATIVE_SENTIMENT,
         confidence := 1/2,
         reason := "Negative sentiment detected" }) ∧
    ((¬ (0 : ℚ) < -1/2) ∧
     3 ≤ sustainedNegativeConversation.sentiment_history.length ∧
     (lastN 3 sustainedNegativeConversation.sentiment_history).sum / 3 <
       -1/2 ∧
     HandoffEvaluator.check_sentiment ⟨"NEUTRAL", 0, 1⟩
       sustainedNegativeConversation (-1/2) =
       { should_handoff := true,
         trigger := some HandoffTrigger.NEGATIVE_SENTIMENT,
         confidence := 4/5,
         reason := "Sustained negative sentiment" }) :=
  ⟨⟨by norm_num,
    (c7_sentiment_check_confidences ⟨"NEGATIVE", -9/10, 1/2⟩
      demoConversation (-1/2)).1 (by norm_num)⟩,
   ⟨by norm_num, by decide,
    by norm_num [sustainedNegativeConversation, lastN],
    (c7_sentiment_check_confidences ⟨"NEUTRAL", 0, 1⟩
      sustainedNegativeConversation (-1/2)).2 (by norm_num) (by decide)
      (by norm_num [sustainedNegativeConversation, lastN])⟩⟩

/-- The linearly-recency-weighted mean the source recomputes on every
update: weights 1..k over the history oldest-to-newest, normalized by the
weight sum. -/
def weightedAverage (history : List ℚ) : ℚ :=
  ((history.zip (List.range' 1 history.length)).map
    (fun p => p.1 * ((p.2 : ℕ) : ℚ))).sum /
  ((List.range' 1 history.length).map (fun w : ℕ => (w : ℚ))).sum

/-- One update_sentiment step keeps exactly the last 10 scores of the
extended history. -/
theorem update_sentiment_history (c : Conversation) (s : ℚ) :
    (c.update_sentiment s).sentiment_history =
      lastN 10 (c.sentiment_history ++ [s]) := by
  unfold Conversation.update_sentiment
  dsimp only
  split
  · rfl
  · next h =>
    rw [lastN_eq_self (by omega)]

/-- One update_sentiment step sets average_sentiment to the weighted mean of
the new history. -/
theorem update_sentiment_avg (c : Conversation) (s : ℚ) :
    (c.update_sentiment s).average_sentiment =
      weightedAverage (c.update_sentiment s).sentiment_history := by
  unfold Conversation.update_sentiment weightedAverage
  dsimp only

/-- Folding update_sentiment over a score list from a history of at most 10
entries leaves the last 10 of the concatenation. -/
theorem foldl_update_sentiment_history (scores : List ℚ) :
    ∀ c : Conversation, c.sentiment_history.length ≤ 10 →
      (scores.foldl Conversation.update_sentiment c).sentiment_history =
        lastN 10 (c.sentiment_history ++ scores) := by
  induction scores with
  | nil =>
      intro c hc
      rw [List.foldl_nil, List.append_nil, lastN_eq_self hc]
  | cons s rest ih =>
      intro c hc
      rw [List.foldl_cons,
        ih (c.update_sentiment s)
          (by rw [update_sentiment_history]; exact lastN_length_le 10 _),
        update_sentiment_history, lastN_append_lastN]
      congr 1
      simp

/-- After at least one update, average_sentiment is the weighted mean of the
current history. -/
theorem foldl_update_sentiment_avg (scores : List ℚ) :
    ∀ c : Conversation, scores ≠ [] →
      (scores.foldl Conversation.update_sentiment c).average_sentiment =
        weightedAverage
          (scores.foldl Conversation.update_sentiment c).sentiment_history := by
  induction scores with
  | nil => intro c h; exact absurd rfl h
  | cons s rest ih =>
      intro c _
      rw [List.foldl_cons]
      by_cases hr : rest = []
      · subst hr
        rw [List.foldl_nil]
        exact update_sentiment_avg c s
      · exact ih _ hr

/-- The position-zipped weighted sum of the source equals the index-based
weighted sum. -/
theorem zip_range'_weighted_sum (h : List ℚ) :
    ∀ a : ℕ,
      ((h.zip (List.range' a h.length)).map
        (fun p => p.1 * ((p.2 : ℕ) : ℚ))).sum =
      ∑ i ∈ Finset.range h.length, h.getD i 0 * ((a + i : ℕ) : ℚ) := by
  induction h with
  | nil => intro a; simp
  | cons x t ih =>
      intro a
      rw [List.length_cons, List.range'_succ, List.zip_cons_cons,
        List.map_cons, List.sum_cons, ih (a + 1), Finset.sum_range_succ']
      simp only [List.getD_cons_succ, List.getD_cons_zero, Nat.add_zero]
      have hsum : (∑ i ∈ Finset.range t.length,
          t.getD i 0 * (((a + 1) + i : ℕ) : ℚ)) =
          ∑ i ∈ Finset.range t.length, t.getD i 0 * ((a + (i + 1) : ℕ) : ℚ) :=
        Finset.sum_congr rfl (fun i _ => by
          rw [show (a + 1) + i = a + (i + 1) from by omega])
      rw [hsum]
      ring

/-- C4: feeding more than 10 sentiment scores through update_sentiment
leaves exactly the last 10 scores in sentiment_history, and
average_sentiment is their mean weighted 1..10 oldest-to-newest and
normalized by the weight sum 55. -/
theorem c4_sentiment_window (c : Conversation) (scores : List ℚ)
    (h10 : 10 < scores.length) :
    (scores.foldl Conversation.update_sentiment c).sentiment_history =
      lastN 10 scores ∧
    (scores.foldl Conversation.update_sentiment c).average_sentiment =
      (∑ i ∈ Finset.range 10,
        (lastN 10 scores).getD i 0 * ((i + 1 : ℕ) : ℚ)) / 55 := by
  obtain ⟨s, rest, rfl⟩ : ∃ s rest, scores = s :: rest := by
    cases scores with
    | nil => simp at h10
    | cons a l => exact ⟨a, l, rfl⟩
  have hge : 10 ≤ (s :: rest).length := Nat.le_of_lt h10
  have hhist : ((s :: rest).foldl Conversation.update_sentiment
      c).sentiment_history = lastN 10 (s :: rest) := by
    rw [List.foldl_cons,
      foldl_update_sentiment_history rest (c.update_sentiment s)
        (by rw [update_sentiment_history]; exact lastN_length_le 10 _),
      update_sentiment_history, lastN_append_lastN,
      show (c.sentiment_history ++ [s]) ++ rest =
        c.sentiment_history ++ (s :: rest) from by simp,
      lastN_append_of_le 10 c.sentiment_history (s :: rest) hge]
  have hlen : (lastN 10 (s :: rest)).length = 10 := by
    rw [lastN_length]
    omega
  refine ⟨hhist, ?_⟩
  rw [foldl_update_sentiment_avg (s :: rest) c (by simp), hhist]
  have hz := zip_range'_weighted_sum (lastN 10 (s :: rest)) 1
  rw [hlen] at hz
  unfold weightedAverage
  rw [hlen, hz,
    show ((List.range' 1 10).map (fun w : ℕ => (w : ℚ))).sum = 55 from by
      norm_num [List.range']]
  congr 1

theorem c4_sentiment_window_witness :
    10 < ([1, 2, 3, 4, 5, 6, 7, 8, 9, 10, 11] : List ℚ).length ∧
    ((([1, 2, 3, 4, 5, 6, 7, 8, 9, 10, 11] : List ℚ).foldl
        Conversation.update_sentiment demoConversation).sentiment_history =
      lastN 10 ([1, 2, 3, 4, 5, 6, 7, 8, 9, 10, 11] : List ℚ) ∧
     (([1, 2, 3, 4, 5, 6, 7, 8, 9, 10, 11] : List ℚ).foldl
        Conversation.update_sentiment demoConversation).average_sentiment =
      (∑ i ∈ Finset.range 10,
        (lastN 10 ([1, 2, 3, 4, 5, 6, 7, 8, 9, 10, 11] : List ℚ)).getD i 0 *
          ((i + 1 : ℕ) : ℚ)) / 55) :=
  ⟨by decide,
   c4_sentiment_window demoConversation
     [1, 2, 3, 4, 5, 6, 7, 8, 9, 10, 11] (by decide)⟩
